import Mathlib

/-!
Verification development for the statistical-volatility-regimes repository.

The repository (src/garch_model.py, src/regime_switching.py,
src/diagnostics.py, src/main.py) is a pipeline that fits GARCH-family
volatility models and a Gaussian HMM to a daily log-return series and
evaluates one-step-ahead volatility forecasts.

Embedding conventions:
* A pandas Series of returns is a `List (Option ℚ)`; `none` models a
  missing (NaN) entry and `dropna` is pandas `Series.dropna()`.
* The third-party estimators (`arch_model(...).fit()`, hmmlearn's
  `GaussianHMM`) are not part of the repository; each is modelled as an
  explicit oracle argument — a pure function of exactly the data the
  Python code passes to it (scaled series / feature matrix, and the
  seed).  The wrapper code of the repository is embedded faithfully
  around these oracles.
* Python float arithmetic is embedded as exact ℚ arithmetic, except for
  `np.sqrt` and the standard deviation inside `StandardScaler`, which
  are embedded as `Real.sqrt`.
* A Python exception propagating out of a function is an `Except.error`.
-/

namespace VolRegimes

/-- A return series as the Python code receives it: an ordered list of
values where `none` stands for a missing (NaN) entry. -/
abbrev RSeries := List (Option ℚ)

/-- pandas `Series.dropna()`: keep the non-missing values, in order. -/
def dropna (xs : RSeries) : List ℚ := xs.filterMap id

/-- The arithmetic mean `l.sum / l.length`, as numpy computes it (over
any division ring; junk value 0 on the empty list, matching the use
sites which guard for emptiness). -/
def mean {α : Type} [DivisionRing α] (l : List α) : α :=
  l.sum / l.length

/-- The three GARCH-family variants fit by `fit_garch_models`
(src/garch_model.py lines 36-49). -/
inductive Variant
  | GARCH11
  | EGARCH
  | GJRGARCH
deriving DecidableEq, Repr

/-- The recoverable per-model failures named by the error taxonomy:
an `arch` fit can raise a convergence failure or a numerical failure. -/
inductive FitError
  | convergenceError
  | numericalError
deriving DecidableEq, Repr

/-- The part of an `arch` fit-result object that `fit_garch_models`
reads: the conditional-volatility path (`res.conditional_volatility`),
the one-step-ahead variance forecast
(`res.forecast(horizon=1).variance.values[-1, 0]`) and the standardized
residuals (`res.std_resid`). -/
structure FitResult where
  condVol : List ℚ
  varForecast1 : ℚ
  stdResid : RSeries
deriving DecidableEq, Repr

/-- The library estimator `arch_model(r, ...).fit(disp="off")` for one
variant, modelled as a pure function of the series the code passes to
it; it may fail with a `FitError` (the exception the fit raises). -/
abbrev GarchOracle := List ℚ → Variant → Except FitError FitResult

/-- src/garch_model.py line 32: `r = returns.dropna() * 100.0` — drop
NaNs and scale to percent before fitting. -/
def scaleToPercent (returns : RSeries) : List ℚ :=
  (dropna returns).map (fun x => x * 100)

/-- The model-fitting section of `fit_garch_models`
(src/garch_model.py lines 36-49): the three variants are fit one after
the other with no exception handling, so the first exception propagates
and aborts the call. -/
def fit_garch_models_fits (fit : GarchOracle) (returns : RSeries) :
    Except FitError (List (Variant × FitResult)) := do
  let r := scaleToPercent returns
  let garch11_res ← fit r Variant.GARCH11
  let egarch_res ← fit r Variant.EGARCH
  let gjr_res ← fit r Variant.GJRGARCH
  pure [(Variant.GARCH11, garch11_res), (Variant.EGARCH, egarch_res),
        (Variant.GJRGARCH, gjr_res)]

/-- One row of `forecasts_df` (src/garch_model.py lines 63-68): asset
label, model name and the one-day-ahead volatility forecast in percent. -/
structure ForecastRecord where
  asset : String
  model : Variant
  volForecastPct : ℝ

/-- src/garch_model.py lines 59-67: the one-step-ahead volatility
forecast is `np.sqrt` of the one-step-ahead variance forecast of the
fitted (scaled) model. -/
noncomputable def mkForecastRecord (asset : String) (m : Variant)
    (res : FitResult) : ForecastRecord :=
  ⟨asset, m, Real.sqrt res.varForecast1⟩

/-- The function `fit_garch_models` as the caller sees it: fit the
three variants on the NaN-dropped, percent-scaled series and emit one
forecast record per variant (plots and file output are side effects
outside the core). -/
noncomputable def fit_garch_models (asset : String) (fit : GarchOracle)
    (returns : RSeries) : Except FitError (List ForecastRecord) :=
  (fit_garch_models_fits fit returns).map
    (fun l => l.map (fun p => mkForecastRecord asset p.1 p.2))

/-! ### Residual diagnostics (src/garch_model.py lines 82-83) -/

/-- The spec's error taxonomy names a `DataError` for insufficient input
length.  No such class exists anywhere in the repository source; the
type is declared here only so that the diagnostics claims about it can
be stated. -/
inductive DataError
  | shortSeries
deriving DecidableEq, Repr

/-- The lag count the code hardwires: `acorr_ljungbox(std_resid,
lags=[10], return_df=False)`. -/
def lbDefaultLags : Nat := 10

/-- Sample autocovariance at lag `k` with denominator `n`, as used by
the Ljung-Box autocorrelations. -/
def acov (xs : List ℚ) (k : Nat) : ℚ :=
  let m := mean xs
  (((List.range (xs.length - k)).map
    (fun t => (xs.getD (t + k) 0 - m) * (xs.getD t 0 - m))).sum) / xs.length

/-- Sample autocorrelation `ρ_k = acov k / acov 0`. -/
def autocorr (xs : List ℚ) (k : Nat) : ℚ := acov xs k / acov xs 0

/-- Modelled from the spec: the Ljung-Box statistic
`Q = n(n+2) Σ_{k=1}^{L} ρ_k²/(n−k)` (spec §4.3).  The statistic itself
is computed by statsmodels' `acorr_ljungbox`, which is not part of this
repository; only the repository's call site around it is code under
src/.  Division by zero in ℚ yields 0, so the formula evaluates (to a
degenerate value) even when `n ≤ k`. -/
def ljung_box_stat (xs : List ℚ) (L : Nat) : ℚ :=
  let n : ℚ := xs.length
  n * (n + 2) * ((List.range L).map
    (fun k => (autocorr xs (k + 1)) ^ 2 / (n - (k + 1)))).sum

/-- The diagnostics step of `fit_garch_models` (src/garch_model.py lines
82-83): `std_resid = res.std_resid.dropna()` followed by
`acorr_ljungbox(std_resid, lags=[10])`.  The code performs no length
validation and never raises a `DataError`; it hands the series straight
to the Ljung-Box computation. -/
def diagnostics_ljungbox (stdResid : RSeries) : Except DataError ℚ :=
  Except.ok (ljung_box_stat (dropna stdResid) lbDefaultLags)

/-! ### Forecast evaluation (src/diagnostics.py) -/

/- `realized_volatility` (src/diagnostics.py lines 6-12) is a rolling
window computation done by pandas outside the core; the evaluator only
consumes its output series, so here it is just an `RSeries`. -/

/-- Python `IndexError`: `.iloc[-1]` on an empty series. -/
inductive EvalError
  | indexError
deriving DecidableEq, Repr

/-- One row of the merged forecast table `df_all` after
src/diagnostics.py lines 50-58 added the realized reference and the
error columns. -/
structure EvalRow where
  model : Variant
  forecastPct : ℚ
  realizedTailPct : ℚ
  absErr : ℚ
  sqErr : ℚ
deriving DecidableEq, Repr

/-- src/diagnostics.py line 49:
`tail_rv = realized_vol_series.dropna().iloc[-1] * 100.0` — the single
most recent non-missing realized-volatility value, converted to percent.
`.iloc[-1]` raises `IndexError` when the dropna'd series is empty. -/
def tail_rv (realized_vol_series : RSeries) : Except EvalError ℚ :=
  match (dropna realized_vol_series).getLast? with
  | none => Except.error EvalError.indexError
  | some v => Except.ok (v * 100)

/-- The row-building part of `evaluate_forecasts` (src/diagnostics.py
lines 46-58): concatenate the forecast records, broadcast the single
realized tail value onto every row, and compute per-row absolute and
squared errors against that one scalar. -/
def evaluate_forecasts_rows (forecasts : List (Variant × ℚ))
    (realized_vol_series : RSeries) : Except EvalError (List EvalRow) :=
  (tail_rv realized_vol_series).map (fun ref =>
    forecasts.map (fun p =>
      ⟨p.1, p.2, ref, |p.2 - ref|, (p.2 - ref) ^ 2⟩))

/-- The `groupby("model").agg mean` of the `abs_err` column
(src/diagnostics.py lines 61-64). -/
def maeOf (rows : List EvalRow) (m : Variant) : ℚ :=
  mean ((rows.filter (fun r => r.model = m)).map (fun r => r.absErr))

/-- The grouped mean of the `sq_err` column followed by
`summary["rmse"] = np.sqrt(summary["sq_err"])` (src/diagnostics.py
line 65). -/
noncomputable def rmseOf (rows : List EvalRow) (m : Variant) : ℝ :=
  Real.sqrt ((mean ((rows.filter (fun r => r.model = m)).map
    (fun r => r.sqErr)) : ℚ) : ℝ)

/-! ### Regime detection (src/regime_switching.py) -/

/-- Population variance as `StandardScaler` computes it (ddof = 0):
the mean of the squared deviations from the mean. -/
noncomputable def popVar (l : List ℝ) : ℝ :=
  mean (l.map (fun x => (x - mean l) ^ 2))

/-- One column of `StandardScaler().fit_transform`: subtract the
column's mean and divide by the column's population standard deviation,
both computed once over the whole column. -/
noncomputable def standardize (l : List ℝ) : List ℝ :=
  l.map (fun x => (x - mean l) / Real.sqrt (popVar l))

/-- src/regime_switching.py lines 43-47: drop NaNs, build the two
feature columns `ret` and `ret_sq = ret ** 2`, and standardize both
columns with a single `StandardScaler` fit over the full feature set.
Each timestep's row is the 2-dimensional feature vector. -/
noncomputable def featureMatrix (returns : RSeries) : List (ℝ × ℝ) :=
  let r : List ℝ := (dropna returns).map (fun (x : ℚ) => (x : ℝ))
  (standardize r).zip (standardize (r.map (fun x => x ^ 2)))

/-- The raw per-row quantities inside hmmlearn's `GaussianHMM` from
which the outputs the repository reads are normalized:
`posteriorScores t k` is the unnormalized posterior score α_t(k)·β_t(k)
of state `k` at timestep `t`, and `transCounts i j` the expected
transition count from state `i` to state `j` accumulated by the final
M-step. -/
structure HMMFitRaw where
  posteriorScores : List (List ℚ)
  transCounts : List (List ℚ)
deriving DecidableEq, Repr

/-- Modelled from the spec: the normalization hmmlearn applies, which is
not part of this repository.  Spec §4.4: the E-step posterior γ_t(k) is
the state score divided by the row total, and the M-step transition row
is "row-normalized so each row sums to 1". -/
def normalizeRow (v : List ℚ) : List ℚ :=
  v.map (fun x => x / v.sum)

/-- Modelled from the spec: `predict_proba` — each timestep's posterior
probability vector is its score row, normalized. -/
def posterior_probs (h : HMMFitRaw) : List (List ℚ) :=
  h.posteriorScores.map normalizeRow

/-- Modelled from the spec: `transmat_` — each state's transition row is
its expected-count row, normalized. -/
def transmat (h : HMMFitRaw) : List (List ℚ) :=
  h.transCounts.map normalizeRow

/-- hmmlearn's `GaussianHMM(n_components, covariance_type="full",
n_iter, random_state).fit(X)`, modelled as a pure function of the
feature matrix, the state count and the random seed — the only inputs
the repository hands it. -/
abbrev HMMOracle := List (ℝ × ℝ) → Nat → Nat → HMMFitRaw

/-- The dictionary `fit_hmm_regimes` returns (src/regime_switching.py
lines 112-121), restricted to the numeric outputs: the posterior state
probabilities, the transition matrix, and the fit configuration the
code hardwired (`random_state=42`, `n_iter=200`). -/
structure RegimeOutput where
  posterior : List (List ℚ)
  trans_mat : List (List ℚ)
  seedUsed : Nat
  nIterUsed : Nat
deriving DecidableEq, Repr

/-- The function `fit_hmm_regimes` (src/regime_switching.py lines
8-121): build the
standardized feature matrix, fit a `GaussianHMM` with `random_state=42`
and `n_iter=200` on it, and return the posterior probabilities and the
transition matrix (plots and CSV output are I/O outside the core). -/
noncomputable def fit_hmm_regimes (hmmFit : HMMOracle) (returns : RSeries)
    (n_states : Nat) : RegimeOutput :=
  let X := featureMatrix returns
  let hmm := hmmFit X n_states 42
  ⟨posterior_probs hmm, transmat hmm, 42, 200⟩

/-! ### The pipeline (src/main.py) -/

/-- The per-asset portion of `main()` relevant to the estimation core
(src/main.py lines 38-55): fit the GARCH family, then fit the HMM.
Python exceptions propagate: a failure in an earlier step aborts the
later steps. -/
noncomputable def pipeline_for_asset (asset : String) (garchFit : GarchOracle)
    (hmmFit : HMMOracle) (returns : RSeries) :
    Except FitError (List ForecastRecord × RegimeOutput) := do
  let recs ← fit_garch_models asset garchFit returns
  let hmm := fit_hmm_regimes hmmFit returns 2
  pure (recs, hmm)

/-! ### General helper lemmas -/

lemma sum_map_div {α β : Type} [DivisionRing α] (l : List β) (f : β → α)
    (c : α) : (l.map (fun x => f x / c)).sum = (l.map f).sum / c := by
  induction l with
  | nil => simp
  | cons a t ih => simp [ih, add_div]

lemma mean_nonneg {α : Type} [LinearOrderedField α] (l : List α)
    (h : ∀ x ∈ l, 0 ≤ x) : 0 ≤ mean l := by
  unfold mean
  exact div_nonneg (List.sum_nonneg h) (by positivity)

lemma mean_eq_zero {α : Type} [DivisionRing α] (l : List α)
    (h : ∀ x ∈ l, x = 0) : mean l = 0 := by
  simp [mean, List.sum_eq_zero h]

lemma normalizeRow_sum (v : List ℚ) (h : v.sum ≠ 0) :
    (normalizeRow v).sum = 1 := by
  have hd := sum_map_div v id v.sum
  simp only [id] at hd
  simp only [normalizeRow, hd, List.map_id]
  exact div_self h

/-- Every row produced by `evaluate_forecasts_rows` has its `abs_err`
and `sq_err` columns computed from its own forecast and the broadcast
realized reference, exactly as src/diagnostics.py lines 53-58 fill
them. -/
lemma eval_rows_mem (forecasts : List (Variant × ℚ)) (rv : RSeries)
    (rows : List EvalRow)
    (h : evaluate_forecasts_rows forecasts rv = Except.ok rows) :
    ∀ r ∈ rows, r.absErr = |r.forecastPct - r.realizedTailPct| ∧
      r.sqErr = (r.forecastPct - r.realizedTailPct) ^ 2 := by
  intro r hr
  unfold evaluate_forecasts_rows at h
  cases htv : tail_rv rv with
  | error e => rw [htv] at h; cases h
  | ok ref =>
    rw [htv] at h
    simp only [Except.map, Except.ok.injEq] at h
    subst h
    simp only [List.mem_map] at hr
    obtain ⟨p, _, rfl⟩ := hr
    constructor <;> rfl

/-- C6: The Forecast Evaluator's realized reference is the single
most recent non-missing rolling realized-volatility value multiplied by
100, and every forecast record's error columns compare its forecast
against that one scalar. -/
theorem evaluator_uses_tail_realized_vol (forecasts : List (Variant × ℚ))
    (rv : RSeries) (t : ℚ) (h : (dropna rv).getLast? = some t) :
    evaluate_forecasts_rows forecasts rv =
      Except.ok (forecasts.map (fun p =>
        ⟨p.1, p.2, t * 100, |p.2 - t * 100|, (p.2 - t * 100) ^ 2⟩)) := by
  simp [evaluate_forecasts_rows, tail_rv, h, Except.map]

theorem evaluator_uses_tail_realized_vol_witness :
    (dropna [some 2, none, some 3]).getLast? = some (3 : ℚ) ∧
    evaluate_forecasts_rows [(Variant.GARCH11, 400)] [some 2, none, some 3] =
      Except.ok [⟨Variant.GARCH11, 400, 3 * 100, |(400 : ℚ) - 3 * 100|,
        ((400 : ℚ) - 3 * 100) ^ 2⟩] :=
  ⟨by decide, evaluator_uses_tail_realized_vol _ _ 3 (by decide)⟩

/-- C7: Per-model MAE and RMSE are nonnegative, and a model whose
forecasts all equal the broadcast realized reference gets MAE = RMSE
= 0. -/
theorem eval_metrics_nonneg_and_exact_zero (forecasts : List (Variant × ℚ))
    (rv : RSeries) (rows : List EvalRow) (m : Variant)
    (h : evaluate_forecasts_rows forecasts rv = Except.ok rows) :
    0 ≤ maeOf rows m ∧ 0 ≤ rmseOf rows m ∧
    ((∀ r ∈ rows, r.model = m → r.forecastPct = r.realizedTailPct) →
      maeOf rows m = 0 ∧ rmseOf rows m = 0) := by
  have hchar := eval_rows_mem forecasts rv rows h
  refine ⟨?_, Real.sqrt_nonneg _, ?_⟩
  · unfold maeOf
    apply mean_nonneg
    intro x hx
    simp only [List.mem_map, List.mem_filter, decide_eq_true_eq] at hx
    obtain ⟨r, ⟨hrmem, _⟩, rfl⟩ := hx
    rw [(hchar r hrmem).1]
    exact abs_nonneg _
  · intro hall
    have habs : ∀ x ∈ (rows.filter (fun r => r.model = m)).map
        (fun r => r.absErr), x = 0 := by
      intro x hx
      simp only [List.mem_map, List.mem_filter, decide_eq_true_eq] at hx
      obtain ⟨r, ⟨hrmem, hrm⟩, rfl⟩ := hx
      rw [(hchar r hrmem).1, hall r hrmem hrm, sub_self, abs_zero]
    have hsq : ∀ x ∈ (rows.filter (fun r => r.model = m)).map
        (fun r => r.sqErr), x = 0 := by
      intro x hx
      simp only [List.mem_map, List.mem_filter, decide_eq_true_eq] at hx
      obtain ⟨r, ⟨hrmem, hrm⟩, rfl⟩ := hx
      rw [(hchar r hrmem).2, hall r hrmem hrm, sub_self]
      ring
    constructor
    · exact mean_eq_zero _ habs
    · unfold rmseOf
      rw [mean_eq_zero _ hsq]
      simp

theorem eval_metrics_nonneg_and_exact_zero_witness :
    evaluate_forecasts_rows [(Variant.GARCH11, 200)] [some 2] =
      Except.ok [⟨Variant.GARCH11, 200, 2 * 100, |(200 : ℚ) - 2 * 100|,
        ((200 : ℚ) - 2 * 100) ^ 2⟩] ∧
    (0 ≤ maeOf [⟨Variant.GARCH11, 200, 2 * 100, |(200 : ℚ) - 2 * 100|,
        ((200 : ℚ) - 2 * 100) ^ 2⟩] Variant.GARCH11 ∧
     0 ≤ rmseOf [⟨Variant.GARCH11, 200, 2 * 100, |(200 : ℚ) - 2 * 100|,
        ((200 : ℚ) - 2 * 100) ^ 2⟩] Variant.GARCH11 ∧
     ((∀ r ∈ [(⟨Variant.GARCH11, 200, 2 * 100, |(200 : ℚ) - 2 * 100|,
        ((200 : ℚ) - 2 * 100) ^ 2⟩ : EvalRow)],
        r.model = Variant.GARCH11 → r.forecastPct = r.realizedTailPct) →
      maeOf [⟨Variant.GARCH11, 200, 2 * 100, |(200 : ℚ) - 2 * 100|,
        ((200 : ℚ) - 2 * 100) ^ 2⟩] Variant.GARCH11 = 0 ∧
      rmseOf [⟨Variant.GARCH11, 200, 2 * 100, |(200 : ℚ) - 2 * 100|,
        ((200 : ℚ) - 2 * 100) ^ 2⟩] Variant.GARCH11 = 0)) :=
  ⟨rfl, eval_metrics_nonneg_and_exact_zero [(Variant.GARCH11, 200)]
    [some 2] _ Variant.GARCH11 rfl⟩

/-- C10: An empty or all-NaN realized-volatility series makes
`evaluate_forecasts` fail with an uncaught `IndexError` at
`.iloc[-1]`; no summary is produced. -/
theorem eval_empty_rv_index_error (forecasts : List (Variant × ℚ))
    (rv : RSeries) (h : dropna rv = []) :
    evaluate_forecasts_rows forecasts rv = Except.error EvalError.indexError := by
  simp [evaluate_forecasts_rows, tail_rv, h, Except.map]

theorem eval_empty_rv_index_error_witness :
    dropna [none, none] = [] ∧
    evaluate_forecasts_rows [(Variant.GARCH11, 1)] [none, none] =
      Except.error EvalError.indexError :=
  ⟨by decide, eval_empty_rv_index_error _ [none, none] (by decide)⟩

/-! ### Standardization lemmas (Regime Detector feature construction) -/

/-- The `ret` column of the feature frame (src/regime_switching.py line
43), as the real-valued vector numpy holds. -/
def retColumn (returns : RSeries) : List ℝ :=
  (dropna returns).map (fun (x : ℚ) => (x : ℝ))

/-- The `ret_sq` column (src/regime_switching.py line 44):
`r["ret"] ** 2`. -/
def sqColumn (returns : RSeries) : List ℝ :=
  (retColumn returns).map (fun x => x ^ 2)

lemma map_ne_nil {α β : Type} (l : List α) (f : α → β) (h : l ≠ []) :
    l.map f ≠ [] := by
  cases l with
  | nil => exact absurd rfl h
  | cons a t => simp

lemma featureMatrix_eq_zip (returns : RSeries) :
    featureMatrix returns =
      (standardize (retColumn returns)).zip (standardize (sqColumn returns)) :=
  rfl

lemma length_standardize (l : List ℝ) : (standardize l).length = l.length := by
  simp [standardize]

lemma sum_map_sub_const (l : List ℝ) (c : ℝ) :
    (l.map (fun x => x - c)).sum = l.sum - l.length * c := by
  induction l with
  | nil => simp
  | cons a t ih =>
    simp only [List.map_cons, List.sum_cons, ih, List.length_cons]
    push_cast
    ring

lemma sum_standardize (l : List ℝ) (h : l ≠ []) : (standardize l).sum = 0 := by
  unfold standardize
  rw [sum_map_div l (fun x => x - mean l) (Real.sqrt (popVar l)),
    sum_map_sub_const]
  have hn : (l.length : ℝ) ≠ 0 := by
    simpa using h
  rw [mean, ← mul_div_assoc, mul_div_cancel_left₀ _ hn, sub_self, zero_div]

lemma mean_standardize (l : List ℝ) (h : l ≠ []) : mean (standardize l) = 0 := by
  unfold mean
  rw [sum_standardize l h, zero_div]

lemma mean_map_div {α β : Type} [Field β] (l : List α) (f : α → β)
    (c : β) : mean (l.map (fun x => f x / c)) = mean (l.map f) / c := by
  unfold mean
  rw [sum_map_div, List.length_map, List.length_map, div_right_comm]

lemma popVar_nonneg (l : List ℝ) : 0 ≤ popVar l := by
  unfold popVar
  apply mean_nonneg
  intro x hx
  simp only [List.mem_map] at hx
  obtain ⟨a, _, rfl⟩ := hx
  positivity

lemma popVar_standardize (l : List ℝ) (h : l ≠ []) (hv : popVar l ≠ 0) :
    popVar (standardize l) = 1 := by
  unfold popVar
  rw [mean_standardize l h]
  simp only [sub_zero]
  have hmm : (standardize l).map (fun z => z ^ 2) =
      l.map (fun x => (x - mean l) ^ 2 / Real.sqrt (popVar l) ^ 2) := by
    simp [standardize, List.map_map, Function.comp_def, div_pow]
  rw [hmm]
  simp only [Real.sq_sqrt (popVar_nonneg l)]
  rw [mean_map_div]
  exact div_self (by simpa [popVar] using hv)

/-- C8: The Regime Detector's feature matrix pairs, timestep by
timestep, the standardized return with the standardized squared return,
and standardization uses the mean and population standard deviation of
the full column (computed once, before the HMM fit sees the data):
each standardized column has mean 0 and population variance 1. -/
theorem hmm_features_standardized_once (returns : RSeries)
    (hne : dropna returns ≠ [])
    (h1 : popVar (retColumn returns) ≠ 0)
    (h2 : popVar (sqColumn returns) ≠ 0) :
    (featureMatrix returns).map Prod.fst = standardize (retColumn returns) ∧
    (featureMatrix returns).map Prod.snd = standardize (sqColumn returns) ∧
    mean (standardize (retColumn returns)) = 0 ∧
    popVar (standardize (retColumn returns)) = 1 ∧
    mean (standardize (sqColumn returns)) = 0 ∧
    popVar (standardize (sqColumn returns)) = 1 := by
  have hr : retColumn returns ≠ [] := map_ne_nil _ _ hne
  have hs : sqColumn returns ≠ [] := map_ne_nil _ _ hr
  have hlen : (standardize (retColumn returns)).length =
      (standardize (sqColumn returns)).length := by
    simp [length_standardize, sqColumn]
  refine ⟨?_, ?_, mean_standardize _ hr, popVar_standardize _ hr h1,
    mean_standardize _ hs, popVar_standardize _ hs h2⟩
  · rw [featureMatrix_eq_zip]
    exact List.map_fst_zip _ _ (le_of_eq hlen)
  · rw [featureMatrix_eq_zip]
    exact List.map_snd_zip _ _ (le_of_eq hlen.symm)

theorem hmm_features_standardized_once_witness :
    (dropna [some 1, some 2] ≠ [] ∧
     popVar (retColumn [some 1, some 2]) ≠ 0 ∧
     popVar (sqColumn [some 1, some 2]) ≠ 0) ∧
    ((featureMatrix [some 1, some 2]).map Prod.fst =
        standardize (retColumn [some 1, some 2]) ∧
     (featureMatrix [some 1, some 2]).map Prod.snd =
        standardize (sqColumn [some 1, some 2]) ∧
     mean (standardize (retColumn [some 1, some 2])) = 0 ∧
     popVar (standardize (retColumn [some 1, some 2])) = 1 ∧
     mean (standardize (sqColumn [some 1, some 2])) = 0 ∧
     popVar (standardize (sqColumn [some 1, some 2])) = 1) := by
  have hne : dropna [some 1, some 2] ≠ [] := by decide
  have hret : retColumn [some 1, some 2] = [(1 : ℝ), (2 : ℝ)] := by
    norm_num [retColumn, dropna, List.filterMap_cons]
  have h1 : popVar (retColumn [some 1, some 2]) ≠ 0 := by
    rw [hret]
    norm_num [popVar, mean]
  have h2 : popVar (sqColumn [some 1, some 2]) ≠ 0 := by
    rw [sqColumn, hret]
    norm_num [popVar, mean]
  exact ⟨⟨hne, h1, h2⟩,
    hmm_features_standardized_once [some 1, some 2] hne h1 h2⟩

/-! ### HMM output invariants and determinism -/

/-- C2: For every return series the Regime Detector accepts, each
timestep's posterior probability vector sums to 1 within the 1e-6
tolerance and every row of the returned transition matrix sums to 1,
provided the fit's raw score rows and expected-count rows have nonzero
totals (hmmlearn guarantees this for a completed fit: Gaussian
densities are positive). -/
theorem hmm_rows_normalized (hmmFit : HMMOracle) (returns : RSeries)
    (n_states : Nat)
    (hp : ∀ row ∈ (hmmFit (featureMatrix returns) n_states 42).posteriorScores,
      row.sum ≠ 0)
    (ht : ∀ row ∈ (hmmFit (featureMatrix returns) n_states 42).transCounts,
      row.sum ≠ 0) :
    (∀ p ∈ (fit_hmm_regimes hmmFit returns n_states).posterior,
      |p.sum - 1| ≤ 1 / 1000000) ∧
    (∀ row ∈ (fit_hmm_regimes hmmFit returns n_states).trans_mat,
      row.sum = 1) := by
  constructor
  · intro p hmem
    simp only [fit_hmm_regimes, posterior_probs, List.mem_map] at hmem
    obtain ⟨row, hrow, rfl⟩ := hmem
    rw [normalizeRow_sum row (hp row hrow), sub_self, abs_zero]
    norm_num
  · intro row hmem
    simp only [fit_hmm_regimes, transmat, List.mem_map] at hmem
    obtain ⟨v, hv, rfl⟩ := hmem
    exact normalizeRow_sum v (ht v hv)

/-- A concrete HMM-fit oracle used to instantiate the invariant
theorem. -/
def witHmmOracle : HMMOracle := fun _ _ _ => ⟨[[1, 3]], [[2, 2]]⟩

theorem hmm_rows_normalized_witness :
    ((∀ row ∈ (witHmmOracle (featureMatrix [some 1]) 2 42).posteriorScores,
        row.sum ≠ 0) ∧
     (∀ row ∈ (witHmmOracle (featureMatrix [some 1]) 2 42).transCounts,
        row.sum ≠ 0)) ∧
    ((∀ p ∈ (fit_hmm_regimes witHmmOracle [some 1] 2).posterior,
        |p.sum - 1| ≤ 1 / 1000000) ∧
     (∀ row ∈ (fit_hmm_regimes witHmmOracle [some 1] 2).trans_mat,
        row.sum = 1)) := by
  have hp : ∀ row ∈ (witHmmOracle (featureMatrix [some 1]) 2 42).posteriorScores,
      row.sum ≠ 0 := by
    intro row hrow
    simp only [witHmmOracle, List.mem_singleton] at hrow
    subst hrow
    norm_num
  have ht : ∀ row ∈ (witHmmOracle (featureMatrix [some 1]) 2 42).transCounts,
      row.sum ≠ 0 := by
    intro row hrow
    simp only [witHmmOracle, List.mem_singleton] at hrow
    subst hrow
    norm_num
  exact ⟨⟨hp, ht⟩, hmm_rows_normalized witHmmOracle [some 1] 2 hp ht⟩

/-- C4: Both estimators are deterministic under the fixed seed: the
GARCH fit and the HMM fit are functions of the input series alone (the
library fits are functions of exactly the data and seed passed to
them), the HMM fit always runs with `random_state=42` and `n_iter=200`,
so two runs on the same series return identical fitted parameters. -/
theorem fits_deterministic_under_fixed_seed (hmmFit : HMMOracle)
    (garchFit : GarchOracle) (asset : String) (r1 r2 : RSeries)
    (n_states : Nat) (h : r1 = r2) :
    fit_hmm_regimes hmmFit r1 n_states = fit_hmm_regimes hmmFit r2 n_states ∧
    (fit_hmm_regimes hmmFit r1 n_states).seedUsed = 42 ∧
    (fit_hmm_regimes hmmFit r1 n_states).nIterUsed = 200 ∧
    fit_garch_models asset garchFit r1 = fit_garch_models asset garchFit r2 := by
  subst h
  exact ⟨rfl, rfl, rfl, rfl⟩

/-- A concrete GARCH-fit oracle for which every variant fit succeeds. -/
def okGarchOracle : GarchOracle := fun _ _ => Except.ok ⟨[1], 4, [some 1]⟩

theorem fits_deterministic_under_fixed_seed_witness :
    ([some 1, none] : RSeries) = [some 1, none] ∧
    (fit_hmm_regimes witHmmOracle [some 1, none] 2 =
       fit_hmm_regimes witHmmOracle [some 1, none] 2 ∧
     (fit_hmm_regimes witHmmOracle [some 1, none] 2).seedUsed = 42 ∧
     (fit_hmm_regimes witHmmOracle [some 1, none] 2).nIterUsed = 200 ∧
     fit_garch_models "SPY" okGarchOracle [some 1, none] =
       fit_garch_models "SPY" okGarchOracle [some 1, none]) :=
  ⟨rfl, fits_deterministic_under_fixed_seed witHmmOracle okGarchOracle
    "SPY" [some 1, none] [some 1, none] 2 rfl⟩

/-! ### Per-variant failure handling (C1) -/

/-- A fit oracle under which the GARCH(1,1) fit raises a
`ConvergenceError` while the EGARCH and GJR-GARCH fits would succeed. -/
def cexGarchFit : GarchOracle := fun _ v =>
  match v with
  | Variant.GARCH11 => Except.error FitError.convergenceError
  | _ => Except.ok ⟨[1], 1, [some 1]⟩

/-- C1 counterexample: With a series on which the GARCH(1,1) fit
raises `ConvergenceError` while the EGARCH and GJR-GARCH fits succeed,
`fit_garch_models` (src/garch_model.py lines 36-49 has no exception
handling) propagates the error: the caller receives no partial result
set and no failure record, and in the pipeline (src/main.py) the HMM
fit does not complete either. -/
theorem garch_failure_aborts_call_cex :
    cexGarchFit (scaleToPercent [some 1]) Variant.EGARCH =
      Except.ok ⟨[1], 1, [some 1]⟩ ∧
    cexGarchFit (scaleToPercent [some 1]) Variant.GJRGARCH =
      Except.ok ⟨[1], 1, [some 1]⟩ ∧
    fit_garch_models_fits cexGarchFit [some 1] =
      Except.error FitError.convergenceError ∧
    pipeline_for_asset "SPY" cexGarchFit witHmmOracle [some 1] =
      Except.error FitError.convergenceError :=
  ⟨rfl, rfl, rfl, rfl⟩

/-- C1 amended: If the first GARCH variant's fit raises a
recoverable error, `fit_garch_models` does not complete the remaining
fits: the exception propagates immediately, the caller receives no
partial result set and no record of which fits failed, and the
pipeline's HMM fit is aborted along with it. -/
theorem garch_failure_propagates (fit : GarchOracle) (returns : RSeries)
    (e : FitError) (asset : String) (hmmFit : HMMOracle)
    (h : fit (scaleToPercent returns) Variant.GARCH11 = Except.error e) :
    fit_garch_models_fits fit returns = Except.error e ∧
    pipeline_for_asset asset fit hmmFit returns = Except.error e := by
  have hfits : fit_garch_models_fits fit returns = Except.error e := by
    simp only [fit_garch_models_fits]
    rw [h]
    rfl
  refine ⟨hfits, ?_⟩
  unfold pipeline_for_asset fit_garch_models
  rw [hfits]
  rfl

theorem garch_failure_propagates_witness :
    cexGarchFit (scaleToPercent [some 2]) Variant.GARCH11 =
      Except.error FitError.convergenceError ∧
    (fit_garch_models_fits cexGarchFit [some 2] =
       Except.error FitError.convergenceError ∧
     pipeline_for_asset "BTC" cexGarchFit witHmmOracle [some 2] =
       Except.error FitError.convergenceError) :=
  ⟨rfl, garch_failure_propagates cexGarchFit [some 2]
    FitError.convergenceError "BTC" witHmmOracle rfl⟩

/-! ### GARCH input scaling and forecast units (C5, C9) -/

/-- C5: The GARCH estimator fits every variant on the input series
scaled by 100 (after dropping NaNs), and each variant's emitted
one-step-ahead forecast is the square root of that variant's one-step
variance forecast for the scaled series — i.e. a percent-volatility
scalar. -/
theorem garch_scaling_and_forecast (fit : GarchOracle) (asset : String)
    (returns : RSeries) (g e j : FitResult)
    (hg : fit (scaleToPercent returns) Variant.GARCH11 = Except.ok g)
    (he : fit (scaleToPercent returns) Variant.EGARCH = Except.ok e)
    (hj : fit (scaleToPercent returns) Variant.GJRGARCH = Except.ok j) :
    scaleToPercent returns = (dropna returns).map (fun x => x * 100) ∧
    fit_garch_models asset fit returns = Except.ok
      [⟨asset, Variant.GARCH11, Real.sqrt g.varForecast1⟩,
       ⟨asset, Variant.EGARCH, Real.sqrt e.varForecast1⟩,
       ⟨asset, Variant.GJRGARCH, Real.sqrt j.varForecast1⟩] := by
  refine ⟨rfl, ?_⟩
  unfold fit_garch_models
  have hfits : fit_garch_models_fits fit returns = Except.ok
      [(Variant.GARCH11, g), (Variant.EGARCH, e), (Variant.GJRGARCH, j)] := by
    simp only [fit_garch_models_fits]
    rw [hg]
    show (do
      let egarch_res ← fit (scaleToPercent returns) Variant.EGARCH
      let gjr_res ← fit (scaleToPercent returns) Variant.GJRGARCH
      pure [(Variant.GARCH11, g), (Variant.EGARCH, egarch_res),
            (Variant.GJRGARCH, gjr_res)] :
      Except FitError (List (Variant × FitResult))) = _
    rw [he]
    show (do
      let gjr_res ← fit (scaleToPercent returns) Variant.GJRGARCH
      pure [(Variant.GARCH11, g), (Variant.EGARCH, e),
            (Variant.GJRGARCH, gjr_res)] :
      Except FitError (List (Variant × FitResult))) = _
    rw [hj]
    rfl
  rw [hfits]
  rfl

theorem garch_scaling_and_forecast_witness :
    okGarchOracle (scaleToPercent [some 1]) Variant.GARCH11 =
      Except.ok ⟨[1], 4, [some 1]⟩ ∧
    (scaleToPercent [some 1] = (dropna [some 1]).map (fun x => x * 100) ∧
     fit_garch_models "SPY" okGarchOracle [some 1] = Except.ok
       [⟨"SPY", Variant.GARCH11,
          Real.sqrt (FitResult.varForecast1 ⟨[1], 4, [some 1]⟩)⟩,
        ⟨"SPY", Variant.EGARCH,
          Real.sqrt (FitResult.varForecast1 ⟨[1], 4, [some 1]⟩)⟩,
        ⟨"SPY", Variant.GJRGARCH,
          Real.sqrt (FitResult.varForecast1 ⟨[1], 4, [some 1]⟩)⟩]) :=
  ⟨rfl, garch_scaling_and_forecast okGarchOracle "SPY" [some 1]
    ⟨[1], 4, [some 1]⟩ ⟨[1], 4, [some 1]⟩ ⟨[1], 4, [some 1]⟩ rfl rfl rfl⟩

lemma dropna_map_some (l : List ℚ) : dropna (l.map some) = l := by
  induction l with
  | nil => rfl
  | cons a t ih =>
    unfold dropna at ih ⊢
    simp only [List.map_cons, List.filterMap_cons, id, ih]

/-- C9: The GARCH estimator silently drops missing values before
scaling and fitting: the whole call behaves identically on a series
with NaNs and on its non-missing subsequence, and no error of any kind
is raised on account of the NaNs (the embedding's error type, taken
from the code, has no data-validation arm at all). -/
theorem garch_drops_nan_silently (fit : GarchOracle) (asset : String)
    (returns : RSeries) :
    fit_garch_models asset fit returns =
      fit_garch_models asset fit ((dropna returns).map some) := by
  unfold fit_garch_models fit_garch_models_fits scaleToPercent
  rw [dropna_map_some]

/-! ### Ljung-Box boundary behavior (C3) -/

/-- C3 counterexample: A 3-element residual series is shorter than
the default Ljung-Box lag count 10, yet the diagnostics step raises no
`DataError`: src/garch_model.py lines 82-83 validate nothing and hand
the series straight to the Ljung-Box computation. -/
theorem short_series_no_data_error_cex :
    (dropna [some 1, some 2, some 3]).length < lbDefaultLags ∧
    diagnostics_ljungbox [some 1, some 2, some 3] ≠
      Except.error DataError.shortSeries :=
  ⟨by decide, fun hcon => Except.noConfusion hcon⟩

/-- C3 amended: A return series shorter than the Ljung-Box lag
count does not raise a `DataError`: the diagnostics step performs no
length validation (no `DataError` is defined or raised anywhere in the
repository) and proceeds to compute the Ljung-Box statistic on the
short series. -/
theorem short_series_proceeds_unvalidated (stdResid : RSeries)
    (_h : (dropna stdResid).length < lbDefaultLags) :
    diagnostics_ljungbox stdResid =
      Except.ok (ljung_box_stat (dropna stdResid) lbDefaultLags) :=
  rfl

theorem short_series_proceeds_unvalidated_witness :
    (dropna [some 5]).length < lbDefaultLags ∧
    diagnostics_ljungbox [some 5] =
      Except.ok (ljung_box_stat (dropna [some 5]) lbDefaultLags) :=
  ⟨by decide, short_series_proceeds_unvalidated [some 5] (by decide)⟩

end VolRegimes
